import Mathlib

/-!
Verification development for the `frankenphp_cli` site-provisioning tool.

The Python sources are shallowly embedded:
* pure string validation (`utils/validators.py`) is embedded character by
  character, including the exact semantics of the two regular expressions
  used there (`re.match` with a `$` anchor, and `re.fullmatch`);
* the JSON state document (`utils/state.py`) is embedded as an inductive
  `Json` value with Python-dict association-list operations;
* every effectful component (`core/site.py`, `core/caddy.py`,
  `core/database.py`, `core/user.py`, `core/wordpress.py`,
  `utils/system.py`) is embedded as an explicit state transformer over a
  `World` record, with a failure-injection `Env` oracle deciding which
  external operation raises.  Each external primitive is modelled as
  atomic: it either performs its full effect or raises leaving the world
  unchanged.
-/

namespace FrankenCli

/-! ### Character helpers (ASCII, as used by the source's regexes) -/

def isAsciiUpperCh (c : Char) : Bool := 'A' ≤ c && c ≤ 'Z'

def isAsciiLowerCh (c : Char) : Bool := 'a' ≤ c && c ≤ 'z'

def isAsciiLetter (c : Char) : Bool := isAsciiUpperCh c || isAsciiLowerCh c

def isAsciiDigit (c : Char) : Bool := '0' ≤ c && c ≤ '9'

def isAlnum (c : Char) : Bool := isAsciiLetter c || isAsciiDigit c

/-- Character class `[a-zA-Z0-9_]` of `IDENTIFIER_REGEX`. -/
def isIdentTailChar (c : Char) : Bool := isAlnum c || c = '_'

/-- Character class `[a-zA-Z0-9-]` for the inner part of a domain label. -/
def isLabelMidChar (c : Char) : Bool := isAlnum c || c = '-'

/-- Python `str.lower` restricted to the ASCII range (the only case folding
relevant to the domain/identifier patterns of the source). -/
def pyLowerCh (c : Char) : Char :=
  if isAsciiUpperCh c then Char.ofNat (c.toNat + 32) else c

def pyLower (cs : List Char) : List Char := cs.map pyLowerCh

def pyLowerS (s : String) : String := ⟨pyLower s.data⟩

/-- Whitespace characters stripped by Python `str.strip()` (ASCII part). -/
def pyIsSpace (c : Char) : Bool :=
  c = ' ' || c = '\t' || c = '\n' || c = '\r' || c = '\x0b' || c = '\x0c'

def pyStrip (cs : List Char) : List Char :=
  ((cs.dropWhile pyIsSpace).reverse.dropWhile pyIsSpace).reverse

def pyStripS (s : String) : String := ⟨pyStrip s.data⟩

/-- Python `v or d` on an optional string: `None` and `""` fall back to `d`. -/
def pyOrStr (v : Option String) (d : String) : String :=
  match v with
  | none => d
  | some s => if s.isEmpty then d else s

/-- Python `s.replace(".", "_")` (single-character replacement). -/
def replaceDots (s : String) : String :=
  ⟨s.data.map (fun c => if c = '.' then '_' else c)⟩

/-- Python slice `s[:n]` on a string (counted in code points). -/
def strTake (s : String) (n : Nat) : String := ⟨s.data.take n⟩

/-- Python `s.split(".")`: split into (possibly empty) dot-free chunks. -/
def splitDots : List Char → List (List Char)
  | [] => [[]]
  | c :: rest =>
    if c = '.' then [] :: splitDots rest
    else
      match splitDots rest with
      | [] => [[c]]
      | h :: t => (c :: h) :: t

/-- Checks that `needle` occurs at the start of `hay`. -/
def listStartsWith : List Char → List Char → Bool
  | [], _ => true
  | _ :: _, [] => false
  | n :: ns, h :: hs => n = h && listStartsWith ns hs

/-- Checks that `needle` occurs somewhere inside `hay` (contiguously). -/
def listContainsSub (needle : List Char) : List Char → Bool
  | [] => listStartsWith needle []
  | c :: rest => listStartsWith needle (c :: rest) || listContainsSub needle rest

/-- Substring test on strings, used to state what a rendered config contains. -/
def strContains (hay needle : String) : Bool := listContainsSub needle.data hay.data

/-! ### JSON documents (the shape `json.load` / `json.dump` work with) -/

inductive Json where
  | null : Json
  | bool (b : Bool) : Json
  | num (n : Int) : Json
  | str (s : String) : Json
  | arr (elems : List Json) : Json
  | obj (kvs : List (String × Json)) : Json

/-- Python dict lookup `d.get(k)` (keys of a parsed dict are unique, so
first-occurrence lookup agrees with Python). -/
def dictGet : List (String × Json) → String → Option Json
  | [], _ => none
  | (k', v) :: rest, k => if k' = k then some v else dictGet rest k

/-- Python dict assignment `d[k] = v`: replace in place or append. -/
def dictSet : List (String × Json) → String → Json → List (String × Json)
  | [], k, v => [(k, v)]
  | (k', v') :: rest, k, v =>
    if k' = k then (k, v) :: rest else (k', v') :: dictSet rest k v

/-- Python `del d[k]` (first occurrence; parsed dicts have unique keys). -/
def dictDel : List (String × Json) → String → List (String × Json)
  | [], _ => []
  | (k', v') :: rest, k => if k' = k then rest else (k', v') :: dictDel rest k

def dictContains (kvs : List (String × Json)) (k : String) : Bool :=
  (dictGet kvs k).isSome

/-- Keys of an association list are pairwise distinct (always true of a
dictionary produced by Python's `json.load`). -/
def keysNodup : List (String × Json) → Bool
  | [] => true
  | (k, _) :: rest => !dictContains rest k && keysNodup rest

/-- Python truthiness of a JSON value (`if x:`). -/
def pyTruthy : Json → Bool
  | .null => false
  | .bool b => b
  | .num n => n ≠ 0
  | .str s => !s.isEmpty
  | .arr xs => !xs.isEmpty
  | .obj kvs => !kvs.isEmpty

/-- Python truthiness of an optional value (`None` is falsy). -/
def pyTruthyOpt : Option Json → Bool
  | none => false
  | some j => pyTruthy j

/-- Errors raised by the embedded code (Python exception classes). -/
inductive Err where
  | valueError (msg : String) : Err
  | attributeError : Err
  | typeError : Err
  | fileExistsError : Err
  | osError : Err
  | userError : Err
  | dbError : Err
  | proxyError : Err
  | networkError : Err
  | calledProcessError : Err

def isErr {α : Type} : Except Err α → Bool
  | .error _ => true
  | .ok _ => false

/-! ### Validator (`utils/validators.py`) -/

/-- The matcher `IDENTIFIER_REGEX.match(name)` for `^[a-zA-Z][a-zA-Z0-9_]{0,63}$`.
Python's `$` (without `re.MULTILINE`) matches at the end of the string and
also just before a single newline at the end of the string, so the matcher
accepts an optional final `'\n'`.  Since `'\n'` is not in the repeated
class, greedy matching is deterministic and is embedded directly. -/
def identRegexTail : List Char → Nat → Bool
  | [], _ => true
  | ['\n'], _ => true
  | c :: rest, n + 1 => isIdentTailChar c && identRegexTail rest n
  | _ :: _, 0 => false

def identRegexMatch (s : String) : Bool :=
  match s.data with
  | [] => false
  | c :: rest => isAsciiLetter c && identRegexTail rest 63

/-- The `validate_identifier` function from `utils/validators.py`. -/
def validate_identifier (name : String) : Bool :=
  if name.isEmpty || name.length > 64 then false
  else identRegexMatch name

/-- One dot-separated label of `DOMAIN_REGEX`:
`[a-zA-Z0-9](?:[a-zA-Z0-9-]{0,61}[a-zA-Z0-9])?` -/
def validLabel : List Char → Bool
  | [] => false
  | [c] => isAlnum c
  | c :: rest =>
    isAlnum c && rest.length ≤ 62 && (rest.dropLast.all isLabelMidChar) &&
      (match rest.getLast? with
       | some x => isAlnum x
       | none => false)

/-- Final label `[a-zA-Z]{2,}` of `DOMAIN_REGEX`. -/
def validTld (l : List Char) : Bool := l.length ≥ 2 && l.all isAsciiLetter

/-- The matcher `DOMAIN_PATTERN.fullmatch(domain)` for
`^(?:[a-zA-Z0-9](?:[a-zA-Z0-9-]{0,61}[a-zA-Z0-9])?\.)+[a-zA-Z]{2,}$`.
Labels cannot contain a dot, so the full match is equivalent to splitting
on dots: at least two chunks, every chunk but the last a valid label, and
the last chunk a valid TLD. -/
def domainRegexFullmatch (d : List Char) : Bool :=
  let parts := splitDots d
  parts.length ≥ 2 && parts.dropLast.all validLabel && validTld (parts.getLastD [])

/-- The `validate_domain` function from `utils/validators.py`. -/
def validate_domain (domain : String) : Bool :=
  let d := pyLower (pyStrip domain.data)
  if d.isEmpty || d.length > 253 then false
  else domainRegexFullmatch d

/-- The `for alias in aliases` loop of `validate_domains`; `seen` models the
Python set of lower-cased domains seen so far. -/
def validateAliasLoop : List String → List String → Bool × String
  | [], _ => (true, "")
  | a :: rest, seen =>
    if !validate_domain a then (false, "Invalid alias: " ++ a)
    else if seen.contains (pyLowerS a) then (false, "Duplicate domain: " ++ a)
    else validateAliasLoop rest (pyLowerS a :: seen)

/-- The `validate_domains` function from `utils/validators.py`. -/
def validate_domains (primary : String) (aliases : List String) : Bool × String :=
  if !validate_domain primary then (false, "Invalid primary domain: " ++ primary)
  else validateAliasLoop aliases [pyLowerS primary]

/-! ### State store (`utils/state.py`) -/

/-- Contents of the state file on disk: absent, present but not valid JSON,
or present and parsing to a JSON value. -/
inductive FileContent where
  | missing : FileContent
  | malformed : FileContent
  | parsed (j : Json) : FileContent

/-- The `DEFAULT_STATE` constant from `utils/state.py` (insertion order of the literal). -/
def DEFAULT_STATE : Json := .obj [("sites", .obj []), ("version", .num 1)]

/-- The pure part of `load_state`: missing file or `json.JSONDecodeError` /
`OSError` yield a copy of the default; a parsed document has its `"sites"`
entry coerced to a dict when it is not one.  `data.get("sites")` is an
attribute access on the parse result, so a parsed non-object document
raises `AttributeError` (not caught by the handler). -/
def load_state_file : FileContent → Except Err Json
  | .missing => .ok DEFAULT_STATE
  | .malformed => .ok DEFAULT_STATE
  | .parsed j =>
    match j with
    | .obj kvs =>
      match dictGet kvs "sites" with
      | some (.obj _) => .ok (.obj kvs)
      | _ => .ok (.obj (dictSet kvs "sites" (.obj [])))
    | _ => .error .attributeError

/-- The `get_site_state` function from `utils/state.py`:
`state.get("sites", {}).get(primary_domain)`. -/
def get_site_state (state : Json) (primary_domain : String) : Except Err (Option Json) :=
  match state with
  | .obj kvs =>
    match dictGet kvs "sites" with
    | none => .ok none
    | some (.obj skvs) => .ok (dictGet skvs primary_domain)
    | some _ => .error .attributeError
  | _ => .error .attributeError

/-- The `set_site_state` function from `utils/state.py` (returns the updated document;
the Python original mutates in place). -/
def set_site_state (state : Json) (primary_domain : String) (site_data : Json) :
    Except Err Json :=
  match state with
  | .obj kvs =>
    let kvs := if dictContains kvs "sites" then kvs else dictSet kvs "sites" (.obj [])
    match dictGet kvs "sites" with
    | some (.obj skvs) =>
      .ok (.obj (dictSet kvs "sites" (.obj (dictSet skvs primary_domain site_data))))
    | some _ => .error .typeError
    | none => .error .typeError
  | _ => .error .attributeError

/-- The `remove_site_state` function from `utils/state.py` (returns the flag and the
updated document). -/
def remove_site_state (state : Json) (primary_domain : String) :
    Except Err (Bool × Json) :=
  match state with
  | .obj kvs =>
    match dictGet kvs "sites" with
    | none => .ok (false, .obj kvs)
    | some (.obj skvs) =>
      if dictContains skvs primary_domain then
        .ok (true, .obj (dictSet kvs "sites" (.obj (dictDel skvs primary_domain))))
      else .ok (false, .obj kvs)
    | some _ => .error .typeError
  | _ => .error .attributeError

/-- Does the persisted file record a site for this domain? -/
def fileRecord (fc : FileContent) (primary_domain : String) : Option Json :=
  match fc with
  | .parsed (.obj kvs) =>
    match dictGet kvs "sites" with
    | some (.obj skvs) => dictGet skvs primary_domain
    | _ => none
  | _ => none

/-- Key dictionaries of a state document have unique keys — true of every
document produced by `json.load`, whose dicts cannot repeat keys. -/
def docKeysOk : Json → Bool
  | .obj kvs =>
    keysNodup kvs &&
      (match dictGet kvs "sites" with
       | some (.obj skvs) => keysNodup skvs
       | _ => true)
  | _ => true

def fileWF : FileContent → Bool
  | .parsed j => docKeysOk j
  | _ => true

/-! ### Configuration constants (`config.py`, default environment) -/

def WEB_ROOT : String := "/var/www"

def CADDY_CONFIG_DIR : String := "/etc/caddy/sites.d"

def PASSWORD_LENGTH : Nat := 32

/-- The alphabet `string.ascii_letters + string.digits + "!@#$%^&*"`. -/
def passwordAlphabet : List Char :=
  "abcdefghijklmnopqrstuvwxyzABCDEFGHIJKLMNOPQRSTUVWXYZ0123456789!@#$%^&*".data

/-! ### Caddy config rendering (`core/caddy.py`) -/

/-- The `get_site_config_path` function from `core/caddy.py`. -/
def get_site_config_path (primary_domain : String) : String :=
  CADDY_CONFIG_DIR ++ "/" ++ replaceDots primary_domain ++ ".conf"

/-- The local `all_domains` of `render_caddy_config`:
`[primary_domain] + [a for a in aliases if a != primary_domain]`. -/
def caddyAllDomains (primary_domain : String) (aliases : List String) : List String :=
  primary_domain :: aliases.filter (fun a => a ≠ primary_domain)

/-- Python `" ".join(domains)`. -/
def joinSpace : List String → String
  | [] => ""
  | [x] => x
  | x :: rest => x ++ " " ++ joinSpace rest

/-- The `render_caddy_config` function from `core/caddy.py`.  Here `tpl` is the content of
`CADDY_TEMPLATE` when that file exists; the repository ships no
`templates/caddy.tpl`, so in a stock checkout `tpl = none` and the embedded
f-string is used. -/
def render_caddy_config (tpl : Option String) (primary_domain : String)
    (aliases : List String) (web_root : String) (_php_version : String) : String :=
  let domains_line := joinSpace (caddyAllDomains primary_domain aliases)
  match tpl with
  | none =>
    domains_line ++ " \x7b\n    root * " ++ web_root ++ "\n    php_server\n\x7d\n"
  | some content =>
    (content.replace "{domains_line}" domains_line).replace "{web_root}" web_root

/-! ### World state and failure injection

`World` is the external state the tool mutates: the site directories under
`WEB_ROOT`, the OS user database, the SQL databases and SQL users, the proxy
config directory, and the state file (plus whether the state directory
exists, which `_ensure_state_dir` creates).  `Env` injects failures of the
external subsystems and supplies the randomness of password generation.
Each primitive is atomic: it either performs its full effect or raises
leaving the world unchanged. -/

structure World where
  stateDirExists : Bool
  stateFile : FileContent
  dirs : String → Bool
  users : String → Bool
  dbs : String → Bool
  dbUsers : String → Bool
  proxy : String → Option String

structure Env where
  mkdirFails : Bool
  rmtreeFails : Bool
  useraddFails : Bool
  userdelFails : Bool
  dbCreateFails : Bool
  dbUserStmtFails : Bool
  dbGrantFails : Bool
  dbDropFails : Bool
  wpFails : Bool
  caddyWriteFails : Bool
  caddyReloadFails : Bool
  caddyRemoveFails : Bool
  saveFails : Bool
  pwChoice : Nat → Nat

def setFun (f : String → Bool) (k : String) : String → Bool :=
  fun x => if x = k then true else f x

def delFun (f : String → Bool) (k : String) : String → Bool :=
  fun x => if x = k then false else f x

def setOpt (f : String → Option String) (k : String) (v : String) :
    String → Option String :=
  fun x => if x = k then some v else f x

def delOpt (f : String → Option String) (k : String) : String → Option String :=
  fun x => if x = k then none else f x

/-! ### Command runner (`utils/system.py`) -/

/-- Result shape of `subprocess.CompletedProcess` as used by the tool. -/
structure CompletedProcess where
  args : List String
  returncode : Int
  stdout : String
  stderr : String

/-- The `run_cmd` function of `utils/system.py` (its Python name is a
reserved Lean command keyword, hence the camel-case spelling here).
`cmdFails` injects a non-zero exit of the external command; with `dry_run`
the command is not executed and a fake success result is returned. -/
def runCmd (cmdFails : Bool) (cmd : List String) (dry_run : Bool) (w : World) :
    Except Err CompletedProcess × World :=
  if dry_run then (.ok ⟨cmd, 0, "", ""⟩, w)
  else if cmdFails then (.error .calledProcessError, w)
  else (.ok ⟨cmd, 0, "", ""⟩, w)

/-! ### State store, effectful wrappers (`utils/state.py`) -/

/-- The `load_state` function: `_ensure_state_dir()` creates the state directory
unconditionally (there is no dry-run guard around it), then the file is
read and parsed. -/
def load_state (w : World) : Except Err Json × World :=
  let w' := { w with stateDirExists := true }
  (load_state_file w'.stateFile, w')

/-- The `save_state` function: ensure the state directory, then rewrite the file. -/
def save_state (env : Env) (state : Json) (w : World) : Except Err Unit × World :=
  let w' := { w with stateDirExists := true }
  if env.saveFails then (.error .osError, w')
  else (.ok (), { w' with stateFile := .parsed state })

/-! ### Linux users (`core/user.py`) -/

/-- The `create_linux_user` function: validate, dry-run short-circuit, then `useradd`
(which exits non-zero if the user already exists). -/
def create_linux_user (env : Env) (username : String) (_home_dir : String)
    (dry_run : Bool) (w : World) : Except Err Unit × World :=
  if !validate_identifier username then
    (.error (.valueError ("Invalid username: " ++ username)), w)
  else if dry_run then (.ok (), w)
  else if env.useraddFails || w.users username then (.error .userError, w)
  else (.ok (), { w with users := setFun w.users username })

/-- The `delete_linux_user` function: validate, dry-run short-circuit, then `userdel`
(which exits non-zero if the user does not exist). -/
def delete_linux_user (env : Env) (username : String) (_remove_home : Bool)
    (dry_run : Bool) (w : World) : Except Err Unit × World :=
  if !validate_identifier username then
    (.error (.valueError ("Invalid username: " ++ username)), w)
  else if dry_run then (.ok (), w)
  else if env.userdelFails || !w.users username then (.error .userError, w)
  else (.ok (), { w with users := delFun w.users username })

/-! ### Database manager (`core/database.py`) -/

/-- The `_generate_password` helper: `PASSWORD_LENGTH` characters drawn from
`passwordAlphabet`; `env.pwChoice` supplies the random draws. -/
def generatePassword (env : Env) : String :=
  ⟨(List.range PASSWORD_LENGTH).map
    (fun i => passwordAlphabet.getD (env.pwChoice i % passwordAlphabet.length) 'a')⟩

/-- The `create_database` function: validate identifiers, default the user to the
database name, generate a password when none is supplied, dry-run
short-circuit, then four SQL statements in sequence on one autocommit
connection: `CREATE DATABASE IF NOT EXISTS`, `CREATE USER IF NOT EXISTS`,
`GRANT`, `FLUSH PRIVILEGES` (each idempotent on existing objects).  The
statements are not a transaction, so a `MySQLError` can strike at three
distinct points: `dbCreateFails` models a failure of the connection or of
`CREATE DATABASE` (nothing created), `dbUserStmtFails` a failure of
`CREATE USER` after the database was created (the database is left
behind), and `dbGrantFails` a failure of `GRANT`/`FLUSH` after both were
created (database and user are left behind). -/
def create_database (env : Env) (db_name : String) (db_user db_password : Option String)
    (dry_run : Bool) (w : World) : Except Err (String × String × String) × World :=
  if !validate_identifier db_name then
    (.error (.valueError ("Invalid database name: " ++ db_name)), w)
  else
    let user := pyOrStr db_user db_name
    if !validate_identifier user then
      (.error (.valueError ("Invalid database user: " ++ user)), w)
    else
      let pw := pyOrStr db_password (generatePassword env)
      if dry_run then (.ok (db_name, user, pw), w)
      else if env.dbCreateFails then (.error .dbError, w)
      else if env.dbUserStmtFails then
        (.error .dbError, { w with dbs := setFun w.dbs db_name })
      else if env.dbGrantFails then
        (.error .dbError,
         { w with dbs := setFun w.dbs db_name, dbUsers := setFun w.dbUsers user })
      else (.ok (db_name, user, pw),
            { w with dbs := setFun w.dbs db_name, dbUsers := setFun w.dbUsers user })

/-- The `delete_database` function: validate the database name (the user is not
validated), default the user to the database name, dry-run short-circuit,
then `DROP DATABASE IF EXISTS` + `DROP USER IF EXISTS` (idempotent). -/
def delete_database (env : Env) (db_name : String) (db_user : Option String)
    (dry_run : Bool) (w : World) : Except Err Unit × World :=
  if !validate_identifier db_name then
    (.error (.valueError ("Invalid database name: " ++ db_name)), w)
  else
    let user := pyOrStr db_user db_name
    if dry_run then (.ok (), w)
    else if env.dbDropFails then (.error .dbError, w)
    else (.ok (), { w with dbs := delFun w.dbs db_name,
                           dbUsers := delFun w.dbUsers user })

/-! ### Proxy config manager, effectful part (`core/caddy.py`) -/

/-- The `write_site_config` function: render, dry-run short-circuit, then write the
file with `path.write_text` and afterwards reload Caddy via `run_cmd`
(`check=True`).  `caddyWriteFails` models a failure of the directory
creation or of the write itself (no file written); `caddyReloadFails`
models a failing reload after a successful write, which re-raises with the
config file already on disk. -/
def write_site_config (env : Env) (primary_domain : String) (aliases : List String)
    (web_root : String) (php_version : String) (dry_run : Bool) (w : World) :
    Except Err Unit × World :=
  let path := get_site_config_path primary_domain
  let config := render_caddy_config none primary_domain aliases web_root php_version
  if dry_run then (.ok (), w)
  else if env.caddyWriteFails then (.error .proxyError, w)
  else if env.caddyReloadFails then
    (.error .calledProcessError, { w with proxy := setOpt w.proxy path config })
  else (.ok (), { w with proxy := setOpt w.proxy path config })

/-- The `remove_site_config` function: report-only under dry-run; otherwise unlink the
file if present and reload, returning whether a file existed. -/
def remove_site_config (env : Env) (primary_domain : String) (dry_run : Bool)
    (w : World) : Except Err Bool × World :=
  let path := get_site_config_path primary_domain
  if dry_run then (.ok ((w.proxy path).isSome), w)
  else
    match w.proxy path with
    | none => (.ok false, w)
    | some _ =>
      if env.caddyRemoveFails then (.error .proxyError, w)
      else (.ok true, { w with proxy := delOpt w.proxy path })

/-! ### WordPress installer (`core/wordpress.py`) -/

/-- The `install_wordpress` function: dry-run short-circuits before any download or
write; otherwise download + extract + `wp-config.php` + permission
normalisation, all inside `site_root` (file contents inside the site
directory are below the granularity of `World`). -/
def install_wordpress (env : Env) (_site_root _db_name _db_user _db_pass : String)
    (dry_run : Bool) (w : World) : Except Err Unit × World :=
  if dry_run then (.ok (), w)
  else if env.wpFails then (.error .networkError, w)
  else (.ok (), w)

/-! ### Site orchestrator (`core/site.py`) -/

/-- The `_site_path` helper: `WEB_ROOT / primary_domain`. -/
def _site_path (primary_domain : String) : String :=
  WEB_ROOT ++ "/" ++ primary_domain

/-- The `_db_name_from_domain` helper: dots to underscores, truncated to 64 chars. -/
def _db_name_from_domain (primary_domain : String) : String :=
  strTake (replaceDots primary_domain) 64

/-- The inline username derivation of `add_site`:
`primary_domain.split(".")[0][:32]`. -/
def unameOfDomain (primary_domain : String) : String :=
  strTake ⟨primary_domain.data.takeWhile (fun c => c ≠ '.')⟩ 32

/-- The call `site_root.mkdir(parents=True, exist_ok=force)`. -/
def mkdirSite (env : Env) (path : String) (exist_ok : Bool) (w : World) :
    Except Err Unit × World :=
  if env.mkdirFails then (.error .osError, w)
  else if w.dirs path && !exist_ok then (.error .fileExistsError, w)
  else (.ok (), { w with dirs := setFun w.dirs path })

/-- The call `shutil.rmtree(path)`. -/
def rmtree (env : Env) (path : String) (w : World) : Except Err Unit × World :=
  if env.rmtreeFails then (.error .osError, w)
  else (.ok (), { w with dirs := delFun w.dirs path })

/-- Entries of `steps_done` in `add_site`: the step tag with the data each
rollback action needs. -/
inductive RbStep where
  | state : RbStep
  | caddy : RbStep
  | wordpress : RbStep
  | database (db_name db_user : String) : RbStep
  | user (username : String) : RbStep
  | directory : RbStep

/-- One iteration of the rollback loop of `add_site`; any exception raised
by the undo action is caught and logged, so only the world transition
remains. -/
def rollbackStep (env : Env) (primary_domain site_root : String) (dry_run : Bool)
    (w : World) (step : RbStep) : World :=
  match step with
  | .state => w
  | .caddy => (remove_site_config env primary_domain dry_run w).2
  | .wordpress => w
  | .database n u => (delete_database env n (some u) dry_run w).2
  | .user u => (delete_linux_user env u true dry_run w).2
  | .directory => if w.dirs site_root then (rmtree env site_root w).2 else w

/-- The rollback loop `for step_name, data in reversed(steps_done)`.  The
`steps` list is kept newest-first, i.e. already in the order the loop
visits them. -/
def rollback (env : Env) (primary_domain site_root : String) (dry_run : Bool)
    (steps : List RbStep) (w : World) : World :=
  steps.foldl (rollbackStep env primary_domain site_root dry_run) w

/-- The `except` clause of `add_site`: rollback unless dry-run, then
re-raise the original exception. -/
def addSiteFail (env : Env) (primary_domain site_root : String) (dry_run : Bool)
    (steps : List RbStep) (e : Err) (w : World) : Except Err Json × World :=
  if dry_run then (.error e, w)
  else (.error e, rollback env primary_domain site_root dry_run steps w)

/-- Python truthiness of an optional string (`None` and `""` falsy). -/
def pyTruthyStr : Option String → Bool
  | none => false
  | some s => !s.isEmpty

def jsonOfOptStr : Option String → Json
  | none => .null
  | some s => .str s

/-- The `site_data` dict assembled in step 5 of `add_site` (db fields only
when `db_user_val` is truthy, `linux_user` only when set). -/
def addSiteData (primary_domain : String) (all_aliases : List String)
    (site_root : String) (php_version : Option String) (app : Option String)
    (db_name : String) (db_user_val db_pass_val linux_user : Option String) : Json :=
  .obj ([("primary_domain", .str primary_domain),
         ("aliases", .arr (all_aliases.map .str)),
         ("path", .str site_root),
         ("php_version", .str (pyOrStr php_version "8.3")),
         ("app", jsonOfOptStr app)] ++
        (if pyTruthyStr db_user_val then
          [("db_name", .str db_name),
           ("db_user", .str (db_user_val.getD "")),
           ("db_password", .str (db_pass_val.getD ""))]
         else []) ++
        (match linux_user with
         | some lu => [("linux_user", .str lu)]
         | none => []))

/-- The `try` body of `add_site` (steps 1–5), starting after validation,
state load and the conflict check.  `steps` is threaded newest-first. -/
def addSiteSteps (env : Env) (primary_domain : String) (aliases : List String)
    (app php_version : Option String) (create_user force dry_run : Bool)
    (site_root : String) (state : Json) (existing : Option Json) (w : World) :
    Except Err Json × World :=
  -- 1. Create directory
  let step1 := if dry_run then (.ok (), w) else mkdirSite env site_root force w
  match step1 with
  | (.error e, w) => addSiteFail env primary_domain site_root dry_run [] e w
  | (.ok _, w) =>
  let steps1 : List RbStep := [.directory]
  -- optional OS user
  let userStep : Except (Err × World) (Option String × List RbStep × World) :=
    if create_user then
      let uname := unameOfDomain primary_domain
      match create_linux_user env uname site_root dry_run w with
      | (.error e, w) => .error (e, w)
      | (.ok _, w) => .ok (some uname, RbStep.user uname :: steps1, w)
    else .ok ((none : Option String), steps1, w)
  match userStep with
  | .error (e, w) => addSiteFail env primary_domain site_root dry_run steps1 e w
  | .ok (linux_user, steps2, w) =>
  -- 2. Database
  let db_name0 := _db_name_from_domain primary_domain
  let dbStep : Except (Err × World) (String × Option String × Option String × List RbStep × World) :=
    if app == some "wordpress" || !pyTruthyOpt existing then
      match create_database env db_name0 none none dry_run w with
      | (.error e, w) => .error (e, w)
      | (.ok (n, u, p), w) =>
        .ok (n, some u, some p,
             RbStep.database n (if u.isEmpty then n else u) :: steps2, w)
    else .ok (db_name0, (none : Option String), (none : Option String), steps2, w)
  match dbStep with
  | .error (e, w) => addSiteFail env primary_domain site_root dry_run steps2 e w
  | .ok (db_name, db_user_val, db_pass_val, steps3, w) =>
  -- 3. WordPress if requested
  let wpStep : Except (Err × List RbStep × World) (String × Option String × Option String × List RbStep × World) :=
    if app == some "wordpress" then
      -- re-create credentials when missing (not recorded in steps_done)
      let creds : Except (Err × World) (String × Option String × Option String × World) :=
        if !pyTruthyStr db_user_val || !pyTruthyStr db_pass_val then
          match create_database env db_name none none dry_run w with
          | (.error e, w) => .error (e, w)
          | (.ok (n, u, p), w) => .ok (n, some u, some p, w)
        else .ok (db_name, db_user_val, db_pass_val, w)
      match creds with
      | .error (e, w) => .error (e, steps3, w)
      | .ok (n, u, p, w) =>
        match install_wordpress env site_root n (u.getD "") (p.getD "") dry_run w with
        | (.error e, w) => .error (e, steps3, w)
        | (.ok _, w) => .ok (n, u, p, RbStep.wordpress :: steps3, w)
    else .ok (db_name, db_user_val, db_pass_val, steps3, w)
  match wpStep with
  | .error (e, steps, w) => addSiteFail env primary_domain site_root dry_run steps e w
  | .ok (db_name, db_user_val, db_pass_val, steps4, w) =>
  -- 4. Caddy config
  let all_aliases := aliases.filter (fun a => a ≠ primary_domain)
  let php_ver := pyStripS (pyOrStr php_version "8.3")
  match write_site_config env primary_domain all_aliases site_root php_ver dry_run w with
  | (.error e, w) => addSiteFail env primary_domain site_root dry_run steps4 e w
  | (.ok _, w) =>
  let steps5 : List RbStep := .caddy :: steps4
  -- 5. State
  let site_data := addSiteData primary_domain all_aliases site_root php_version app
    db_name db_user_val db_pass_val linux_user
  match set_site_state state primary_domain site_data with
  | .error e => addSiteFail env primary_domain site_root dry_run steps5 e w
  | .ok state' =>
  if dry_run then (.ok site_data, w)
  else
    match save_state env state' w with
    | (.error e, w) => addSiteFail env primary_domain site_root dry_run steps5 e w
    | (.ok _, w) => (.ok site_data, w)

/-- The `add_site` function from `core/site.py`. -/
def add_site (env : Env) (primary_domain : String) (aliases : List String)
    (app php_version : Option String) (create_user force dry_run : Bool)
    (w : World) : Except Err Json × World :=
  match validate_domains primary_domain aliases with
  | (false, err) => (.error (.valueError err), w)
  | (true, _) =>
    let site_root := _site_path primary_domain
    match load_state w with
    | (.error e, w) => (.error e, w)
    | (.ok state, w) =>
      match get_site_state state primary_domain with
      | .error e => (.error e, w)
      | .ok existing =>
        if pyTruthyOpt existing && !force then
          (.error (.valueError ("Site already exists: " ++ primary_domain)), w)
        else
          addSiteSteps env primary_domain aliases app php_version create_user force
            dry_run site_root state existing w

/-- The database-teardown block of `delete_site` (`if site_data:` with the
`db_name` / `db_user` lookups and truthiness checks of the source). -/
def deleteSiteDb (env : Env) (site_data : Option Json) (dry_run : Bool) (w : World) :
    Except Err Unit × World :=
  match site_data with
  | none => (.ok (), w)
  | some j =>
    if pyTruthy j then
      match j with
      | .obj r =>
        match dictGet r "db_name" with
        | none => (.ok (), w)
        | some dn =>
          if pyTruthy dn then
            match dn with
            | .str n =>
              let du := match dictGet r "db_user" with
                        | some (.str u) => some u
                        | _ => none
              delete_database env n du dry_run w
            | _ => (.error .typeError, w)
          else (.ok (), w)
      | _ => (.error .attributeError, w)
    else (.ok (), w)

/-- The `delete_site` function from `core/site.py`: remove directory, drop recorded
database, remove proxy config, remove state record, save — strictly in
sequence, with no exception guard between the steps. -/
def delete_site (env : Env) (primary_domain : String) (dry_run : Bool) (w : World) :
    Except Err Unit × World :=
  match load_state w with
  | (.error e, w) => (.error e, w)
  | (.ok state, w) =>
    match get_site_state state primary_domain with
    | .error e => (.error e, w)
    | .ok site_data =>
      let site_root := _site_path primary_domain
      let rmStep := if !dry_run && w.dirs site_root then rmtree env site_root w
                    else (.ok (), w)
      match rmStep with
      | (.error e, w) => (.error e, w)
      | (.ok _, w) =>
        match deleteSiteDb env site_data dry_run w with
        | (.error e, w) => (.error e, w)
        | (.ok _, w) =>
          match remove_site_config env primary_domain dry_run w with
          | (.error e, w) => (.error e, w)
          | (.ok _, w) =>
            match remove_site_state state primary_domain with
            | .error e => (.error e, w)
            | .ok (_, state') =>
              if !dry_run then
                match save_state env state' w with
                | (.error e, w) => (.error e, w)
                | (.ok _, w) => (.ok (), w)
              else (.ok (), w)

/-! ### Basic lemmas about the dictionary and substring helpers -/

theorem dictGet_dictSet_self (kvs : List (String × Json)) (k : String) (v : Json) :
    dictGet (dictSet kvs k v) k = some v := by
  induction kvs with
  | nil => simp [dictSet, dictGet]
  | cons head tail ih =>
    obtain ⟨k', v'⟩ := head
    by_cases h : k' = k
    · simp [dictSet, dictGet, h]
    · simp [dictSet, dictGet, h, ih]

theorem load_state_file_shape (fc : FileContent) (st : Json)
    (h : load_state_file fc = .ok st) :
    ∃ kvs skvs, st = .obj kvs ∧ dictGet kvs "sites" = some (.obj skvs) := by
  cases fc with
  | missing =>
    simp [load_state_file] at h
    subst h
    exact ⟨_, [], rfl, rfl⟩
  | malformed =>
    simp [load_state_file] at h
    subst h
    exact ⟨_, [], rfl, rfl⟩
  | parsed j =>
    cases j with
    | obj kvs =>
      simp only [load_state_file] at h
      cases hs : dictGet kvs "sites" with
      | none =>
        simp [hs] at h
        subst h
        exact ⟨_, [], rfl, dictGet_dictSet_self kvs "sites" (.obj [])⟩
      | some v =>
        cases v with
        | obj skvs =>
          simp [hs] at h
          subst h
          exact ⟨kvs, skvs, rfl, hs⟩
        | null =>
          simp [hs] at h
          subst h
          exact ⟨_, [], rfl, dictGet_dictSet_self kvs "sites" (.obj [])⟩
        | bool b =>
          simp [hs] at h
          subst h
          exact ⟨_, [], rfl, dictGet_dictSet_self kvs "sites" (.obj [])⟩
        | num n =>
          simp [hs] at h
          subst h
          exact ⟨_, [], rfl, dictGet_dictSet_self kvs "sites" (.obj [])⟩
        | str s =>
          simp [hs] at h
          subst h
          exact ⟨_, [], rfl, dictGet_dictSet_self kvs "sites" (.obj [])⟩
        | arr xs =>
          simp [hs] at h
          subst h
          exact ⟨_, [], rfl, dictGet_dictSet_self kvs "sites" (.obj [])⟩
    | null => simp [load_state_file] at h
    | bool b => simp [load_state_file] at h
    | num n => simp [load_state_file] at h
    | str s => simp [load_state_file] at h
    | arr xs => simp [load_state_file] at h

theorem listStartsWith_append (n t : List Char) : listStartsWith n (n ++ t) = true := by
  induction n with
  | nil => rfl
  | cons c rest ih => simp [listStartsWith, ih]

theorem listStartsWith_extend (n h t : List Char) (hh : listStartsWith n h = true) :
    listStartsWith n (h ++ t) = true := by
  induction n generalizing h with
  | nil => rfl
  | cons c rest ih =>
    cases h with
    | nil => simp [listStartsWith] at hh
    | cons c' h' =>
      simp [listStartsWith] at hh ⊢
      exact ⟨hh.1, ih h' hh.2⟩

theorem listContainsSub_nil_needle (hay : List Char) : listContainsSub [] hay = true := by
  induction hay with
  | nil => rfl
  | cons c rest ih => simp [listContainsSub, listStartsWith]

theorem listContainsSub_append_left (n s t : List Char)
    (h : listContainsSub n t = true) : listContainsSub n (s ++ t) = true := by
  induction s with
  | nil => simpa using h
  | cons c rest ih => simp [listContainsSub, ih]

theorem listContainsSub_append_right (n s t : List Char)
    (h : listContainsSub n s = true) : listContainsSub n (s ++ t) = true := by
  induction s with
  | nil =>
    cases n with
    | nil => exact listContainsSub_nil_needle t
    | cons c ns => simp [listContainsSub, listStartsWith] at h
  | cons c rest ih =>
    simp only [listContainsSub, Bool.or_eq_true] at h
    simp only [List.cons_append, listContainsSub, Bool.or_eq_true]
    rcases h with h | h
    · exact Or.inl (listStartsWith_extend _ _ t h)
    · exact Or.inr (ih h)

theorem listContainsSub_self (n : List Char) : listContainsSub n n = true := by
  cases n with
  | nil => rfl
  | cons c rest =>
    have h := listStartsWith_append (c :: rest) []
    rw [List.append_nil] at h
    simp [listContainsSub, h]

theorem listContainsSub_append_mid (a n b : List Char) :
    listContainsSub n (a ++ n ++ b) = true := by
  rw [List.append_assoc]
  apply listContainsSub_append_left
  apply listContainsSub_append_right
  exact listContainsSub_self n

theorem strContains_append_mid (a n b : String) : strContains (a ++ n ++ b) n = true := by
  simp only [strContains, String.data_append]
  exact listContainsSub_append_mid a.data n.data b.data

theorem strContains_mem_joinSpace (l : List String) (a : String) (h : a ∈ l) :
    strContains (joinSpace l) a = true := by
  induction l with
  | nil => cases h
  | cons x rest ih =>
    cases rest with
    | nil =>
      simp at h
      subst h
      have := strContains_append_mid "" a ""
      simpa using this
    | cons y rest' =>
      simp only [joinSpace]
      rcases List.mem_cons.mp h with h | h
      · subst h
        simp only [strContains, String.data_append]
        apply listContainsSub_append_right
        apply listContainsSub_append_right
        have := listContainsSub_append_mid [] a.data []
        simpa using this
      · have hin := ih h
        simp only [strContains, String.data_append]
        apply listContainsSub_append_left
        exact hin

/-! ### Claim C3 — `load_state` on missing/malformed/arbitrary state files -/

/-- Claim C3: the claim states that `load()` never raises whatever the file
contains, returning the parsed document or the `{version:1, sites:{}}`
default.  The code contradicts its own docstring ("Returns default state if
file missing or invalid"): a file holding valid JSON that is not an object
(for example the text `[]`) parses fine, and `data.get("sites")` then
raises `AttributeError`, which the `except (json.JSONDecodeError, OSError)`
handler does not catch.  Missing and unparsable files do recover to the
default. -/
theorem load_state_nonobject_raises :
    load_state_file (.parsed (.arr [])) = .error .attributeError ∧
    load_state_file .missing = .ok DEFAULT_STATE ∧
    load_state_file .malformed = .ok DEFAULT_STATE :=
  ⟨rfl, rfl, rfl⟩

/-! ### Claim C4 — `validate_identifier` -/

/-- Claim C4: the claim states that `validate_identifier(s)` is true iff
`s` is a letter followed by at most 63 letters/digits/underscores, with no
trailing whitespace or newline accepted.  The code contradicts its own
docstring ("alphanumeric + underscore"): `IDENTIFIER_REGEX` is applied with
`re.match` and a `$` anchor, and Python's `$` also matches just before a
single trailing newline, so `"a\n"` is accepted even though `'\n'` is
neither a letter, a digit, nor an underscore.  (`validate_domain` uses
`fullmatch`; the `match` + `$` in `validate_identifier` is the slip.) -/
theorem validate_identifier_accepts_trailing_newline :
    validate_identifier "a\n" = true ∧
    '\n' ∈ "a\n".data ∧ isIdentTailChar '\n' = false ∧ isAsciiLetter '\n' = false := by
  refine ⟨by decide, by decide, by decide, by decide⟩

/-! ### Claim C6 — state-store round trip -/

/-- Claim C6: round-trip through the state store.  For every loadable state
file, any domain `d` and record `r`: `set` on the loaded document succeeds,
`save` persists it, a subsequent `load` returns exactly the saved document
and `get` on it returns exactly `r`. -/
theorem state_store_roundtrip (env : Env) (w : World) (d : String) (r st : Json)
    (hload : load_state_file w.stateFile = .ok st)
    (hsave : env.saveFails = false) :
    ∃ st', set_site_state st d r = .ok st' ∧
      (save_state env st' w).1 = .ok () ∧
      (save_state env st' w).2.stateFile = .parsed st' ∧
      load_state_file (.parsed st') = .ok st' ∧
      get_site_state st' d = .ok (some r) := by
  obtain ⟨kvs, skvs, hst, hsites⟩ := load_state_file_shape w.stateFile st hload
  subst hst
  refine ⟨.obj (dictSet kvs "sites" (.obj (dictSet skvs d r))), ?_, ?_, ?_, ?_, ?_⟩
  · simp [set_site_state, dictContains, hsites]
  · simp [save_state, hsave]
  · simp [save_state, hsave]
  · simp [load_state_file, dictGet_dictSet_self]
  · simp [get_site_state, dictGet_dictSet_self]

/-- Witness for C6 at a concrete state file, domain and record. -/
theorem state_store_roundtrip_witness :
    ∃ st', set_site_state DEFAULT_STATE "example.com" (.obj [("path", .str "/var/www/example.com")]) = .ok st' ∧
      (save_state ⟨false, false, false, false, false, false, false, false, false, false, false, false, false, fun _ => 0⟩ st'
        ⟨false, .missing, fun _ => false, fun _ => false, fun _ => false, fun _ => false, fun _ => none⟩).1 = .ok () ∧
      (save_state ⟨false, false, false, false, false, false, false, false, false, false, false, false, false, fun _ => 0⟩ st'
        ⟨false, .missing, fun _ => false, fun _ => false, fun _ => false, fun _ => false, fun _ => none⟩).2.stateFile = .parsed st' ∧
      load_state_file (.parsed st') = .ok st' ∧
      get_site_state st' "example.com" = .ok (some (.obj [("path", .str "/var/www/example.com")])) :=
  state_store_roundtrip _ _ "example.com" _ DEFAULT_STATE rfl rfl

/-! ### Claim C5 — duplicate detection in `validate_domains` -/

/-- Helper: the alias loop reports a duplicate whenever every alias is a
valid domain and either some alias lower-cases into `seen` or two aliases
lower-case equal. -/
theorem validateAliasLoop_dup (aliases : List String) (seen : List String)
    (ha : ∀ a ∈ aliases, validate_domain a = true)
    (h : (∃ a ∈ aliases, pyLowerS a ∈ seen) ∨ ¬ (aliases.map pyLowerS).Nodup) :
    (validateAliasLoop aliases seen).1 = false ∧
      ∃ a, (validateAliasLoop aliases seen).2 = "Duplicate domain: " ++ a := by
  induction aliases generalizing seen with
  | nil =>
    rcases h with ⟨a, ha', _⟩ | h
    · cases ha'
    · simp at h
  | cons a rest ih =>
    have hav : validate_domain a = true := ha a (List.mem_cons_self a rest)
    by_cases hm : pyLowerS a ∈ seen
    · refine ⟨?_, a, ?_⟩ <;> simp [validateAliasLoop, hav, hm]
    · have hrest : ∀ b ∈ rest, validate_domain b = true := by
        intro b hb
        exact ha b (List.mem_cons_of_mem a hb)
      have hnext : (∃ b ∈ rest, pyLowerS b ∈ pyLowerS a :: seen) ∨
          ¬ (rest.map pyLowerS).Nodup := by
        rcases h with ⟨b, hb, hbs⟩ | h
        · rcases List.mem_cons.mp hb with hba | hbr
          · exact absurd (hba ▸ hbs) hm
          · exact Or.inl ⟨b, hbr, List.mem_cons_of_mem _ hbs⟩
        · rw [List.map_cons, List.nodup_cons] at h
          push_neg at h
          by_cases hmem : pyLowerS a ∈ rest.map pyLowerS
          · obtain ⟨b, hbr, hbl⟩ := List.mem_map.mp hmem
            exact Or.inl ⟨b, hbr, by rw [hbl]; exact List.mem_cons_self _ _⟩
          · exact Or.inr (h hmem)
      have := ih (pyLowerS a :: seen) hrest hnext
      simpa [validateAliasLoop, hav, hm] using this

/-- Claim C5, counterexample to the claim as stated: with `primary = "x"`
and `aliases = ["x"]` two members of `{primary} ∪ aliases` are equal (hence
equal case-insensitively), yet `validate_domains` reports the invalid
primary domain, not a duplicate-domain message. -/
theorem validate_domains_dup_counterexample :
    pyLowerS "x" = pyLowerS "x" ∧
    (validate_domains "x" ["x"]).1 = false ∧
    (validate_domains "x" ["x"]).2 = "Invalid primary domain: x" ∧
    listStartsWith "Duplicate domain: ".data (validate_domains "x" ["x"]).2.data = false := by
  refine ⟨rfl, by decide, by decide, by decide⟩

/-- Claim C5 as amended: whenever the primary domain and all aliases are
valid domains and any two members of `{primary} ∪ aliases` are equal
case-insensitively (equal after lower-casing), `validate_domains` returns
`false` together with a duplicate-domain error message; an invalid domain
is instead reported with an invalid-domain message before duplicates are
considered. -/
theorem validate_domains_dup (primary : String) (aliases : List String)
    (hp : validate_domain primary = true)
    (ha : ∀ a ∈ aliases, validate_domain a = true)
    (hdup : ¬ ((primary :: aliases).map pyLowerS).Nodup) :
    (validate_domains primary aliases).1 = false ∧
      ∃ a, (validate_domains primary aliases).2 = "Duplicate domain: " ++ a := by
  have h : (∃ a ∈ aliases, pyLowerS a ∈ [pyLowerS primary]) ∨
      ¬ (aliases.map pyLowerS).Nodup := by
    rw [List.map_cons, List.nodup_cons] at hdup
    push_neg at hdup
    by_cases hmem : pyLowerS primary ∈ aliases.map pyLowerS
    · obtain ⟨b, hbr, hbl⟩ := List.mem_map.mp hmem
      exact Or.inl ⟨b, hbr, by rw [hbl]; exact List.mem_singleton.mpr rfl⟩
    · exact Or.inr (hdup hmem)
  have := validateAliasLoop_dup aliases [pyLowerS primary] ha h
  simpa [validate_domains, hp] using this

/-- Witness for the amended C5: `"Example.COM"` duplicates
`"example.com"` case-insensitively and is reported as a duplicate. -/
theorem validate_domains_dup_witness :
    (validate_domains "example.com" ["Example.COM"]).1 = false ∧
      ∃ a, (validate_domains "example.com" ["Example.COM"]).2 = "Duplicate domain: " ++ a :=
  validate_domains_dup "example.com" ["Example.COM"] (by decide)
    (by intro a ha; simp at ha; subst ha; decide) (by decide)

/-! ### Claim C9 — Caddy virtual-host rendering -/

/-- Claim C9, counterexample to the claim as stated: the rendered domain
list is NOT deduplicated — `render_caddy_config` only filters out
occurrences of the primary domain from the aliases, so a repeated alias is
listed twice. -/
theorem render_caddy_config_dedup_counterexample :
    caddyAllDomains "a.com" ["b.com", "b.com"] = ["a.com", "b.com", "b.com"] ∧
    ¬ (caddyAllDomains "a.com" ["b.com", "b.com"]).Nodup ∧
    render_caddy_config none "a.com" ["b.com", "b.com"] "/var/www/a.com" "8.3" =
      "a.com b.com b.com \x7b\n    root * /var/www/a.com\n    php_server\n\x7d\n" := by
  refine ⟨by decide, by decide, rfl⟩

/-- Claim C9 as amended: with the built-in template (the repository ships no
`caddy.tpl`), the rendered block's domain list is the primary domain
followed by the aliases in order with occurrences of the primary removed
(duplicate aliases are kept, not deduplicated); the primary, every alias
different from the primary, and the web root all appear literally in the
output; a `php_server` (embedded PHP) directive appears; and on the spec's
rendering example no `php_fastcgi` (separate-process) directive appears. -/
theorem render_caddy_config_amended (p wr php : String) (as : List String) :
    strContains (render_caddy_config none p as wr php) p = true ∧
    (∀ a ∈ as, a ≠ p → strContains (render_caddy_config none p as wr php) a = true) ∧
    strContains (render_caddy_config none p as wr php) wr = true ∧
    strContains (render_caddy_config none p as wr php) "php_server" = true ∧
    strContains (render_caddy_config none "example.com" ["www.example.com"]
      "/var/www/example.com" "8.3") "php_fastcgi" = false := by
  simp only [render_caddy_config]
  refine ⟨?_, ?_, ?_, ?_, by decide⟩
  · simp only [strContains, String.data_append]
    apply listContainsSub_append_right
    apply listContainsSub_append_right
    apply listContainsSub_append_right
    have := strContains_mem_joinSpace (caddyAllDomains p as) p (List.mem_cons_self _ _)
    simpa [strContains] using this
  · intro a ha hne
    simp only [strContains, String.data_append]
    apply listContainsSub_append_right
    apply listContainsSub_append_right
    apply listContainsSub_append_right
    have hmem : a ∈ caddyAllDomains p as :=
      List.mem_cons_of_mem _ (List.mem_filter.mpr ⟨ha, by simp [hne]⟩)
    have := strContains_mem_joinSpace (caddyAllDomains p as) a hmem
    simpa [strContains] using this
  · simp only [strContains, String.data_append]
    exact listContainsSub_append_mid _ _ _
  · simp only [strContains, String.data_append]
    apply listContainsSub_append_left
    decide

/-- Witness for the amended C9 at the spec's rendering example. -/
theorem render_caddy_config_amended_witness :
    strContains (render_caddy_config none "example.com" ["www.example.com"]
      "/var/www/example.com" "8.3") "www.example.com" = true :=
  (render_caddy_config_amended "example.com" "/var/www/example.com" "8.3"
    ["www.example.com"]).2.1 "www.example.com" (by decide) (by decide)

/-! ### Concrete fixtures used by counterexamples and witnesses -/

/-- An environment in which every external operation succeeds. -/
def envAllOk : Env :=
  ⟨false, false, false, false, false, false, false, false, false, false, false,
   false, false, fun _ => 0⟩

/-- An environment in which only `shutil.rmtree` fails. -/
def envRmFail : Env := { envAllOk with rmtreeFails := true }

/-- An environment in which the proxy-config write fails and the rollback's
database drop also fails. -/
def envCaddyAndDropFail : Env :=
  { envAllOk with caddyWriteFails := true, dbDropFails := true }

/-- An environment in which only the caddy reload (run after the proxy config
file has been written) fails. -/
def envReloadFail : Env := { envAllOk with caddyReloadFails := true }

/-- An environment in which only the `CREATE USER` statement of
`create_database` (run after `CREATE DATABASE` has succeeded) fails. -/
def envDbPartialFail : Env := { envAllOk with dbUserStmtFails := true }

/-- A fresh host: no state directory, no state file, nothing provisioned. -/
def emptyWorld : World :=
  ⟨false, .missing, fun _ => false, fun _ => false, fun _ => false, fun _ => false,
   fun _ => none⟩

/-- A fully provisioned `example.com` site record, as `add_site` writes it. -/
def siteRecordEx : Json :=
  .obj [("primary_domain", .str "example.com"), ("aliases", .arr []),
        ("path", .str "/var/www/example.com"), ("php_version", .str "8.3"),
        ("app", .null), ("db_name", .str "example_com"),
        ("db_user", .str "example_com"), ("db_password", .str "pw")]

/-- A world on which `example.com` is fully provisioned and recorded. -/
def worldEx : World :=
  ⟨true,
   .parsed (.obj [("sites", .obj [("example.com", siteRecordEx)]), ("version", .num 1)]),
   fun x => x == "/var/www/example.com",
   fun _ => false,
   fun x => x == "example_com",
   fun x => x == "example_com",
   fun x => if x == "/etc/caddy/sites.d/example_com.conf" then some "cfg" else none⟩

/-! ### Claim C2 — `delete_site` teardown continuation -/

/-- Claim C2, counterexample to the claim as stated: on a fully provisioned
site, when removing the site directory raises, `delete_site` re-raises at
once; the recorded database is not dropped, the proxy config file is not
removed and the state record is not removed, even though every one of those
steps would have succeeded had it been attempted (only `rmtree` fails in
this environment). -/
theorem delete_site_stops_counterexample :
    (delete_site envRmFail "example.com" false worldEx).1 = Except.error Err.osError ∧
    (delete_site envRmFail "example.com" false worldEx).2.dbs "example_com" = true ∧
    (delete_site envRmFail "example.com" false worldEx).2.proxy
      "/etc/caddy/sites.d/example_com.conf" = some "cfg" ∧
    fileRecord (delete_site envRmFail "example.com" false worldEx).2.stateFile
      "example.com" = some siteRecordEx :=
  ⟨rfl, rfl, rfl, rfl⟩

/-- Claim C2 as amended: `delete_site` has no exception guard between its
teardown steps, so a raised exception in an earlier step aborts the call
immediately and the subsequent teardown steps of that invocation are NOT
attempted.  Concretely, when removing the site directory raises, the call
returns that exception with the world unchanged (apart from the state
directory ensured by `load_state`): no database drop, no proxy-config
removal, no state write happens. -/
theorem delete_site_stops_at_first_failure (env : Env) (w : World)
    (primary : String) (st : Json)
    (hload : load_state_file w.stateFile = .ok st)
    (hrm : env.rmtreeFails = true)
    (hdir : w.dirs (_site_path primary) = true) :
    delete_site env primary false w =
      (Except.error Err.osError, { w with stateDirExists := true }) := by
  obtain ⟨kvs, skvs, hst, hsites⟩ := load_state_file_shape w.stateFile st hload
  subst hst
  simp [delete_site, load_state, hload, get_site_state, hsites, hdir, rmtree, hrm]

/-- Witness for the amended C2 on the provisioned example world. -/
theorem delete_site_stops_at_first_failure_witness :
    delete_site envRmFail "example.com" false worldEx =
      (Except.error Err.osError, { worldEx with stateDirExists := true }) :=
  delete_site_stops_at_first_failure envRmFail worldEx "example.com"
    (.obj [("sites", .obj [("example.com", siteRecordEx)]), ("version", .num 1)])
    rfl rfl rfl

/-! ### Claim C8 — dry-run invariant -/

/-- Under dry-run, `create_linux_user` validates and reports, with no
world change. -/
theorem create_linux_user_dry (env : Env) (u h : String) (w : World) :
    create_linux_user env u h true w =
      ((if validate_identifier u = true then Except.ok ()
        else Except.error (Err.valueError ("Invalid username: " ++ u))), w) := by
  unfold create_linux_user
  split_ifs <;> simp_all

/-- Under dry-run, `create_database` validates and returns the placeholder
credentials, with no world change. -/
theorem create_database_dry (env : Env) (n : String) (du dp : Option String)
    (w : World) :
    create_database env n du dp true w =
      ((if validate_identifier n = true then
          (if validate_identifier (pyOrStr du n) = true then
            Except.ok (n, pyOrStr du n, pyOrStr dp (generatePassword env))
           else Except.error (Err.valueError ("Invalid database user: " ++ pyOrStr du n)))
        else Except.error (Err.valueError ("Invalid database name: " ++ n))), w) := by
  unfold create_database
  split_ifs <;> simp_all

theorem install_wordpress_dry (env : Env) (a b c d : String) (w : World) :
    install_wordpress env a b c d true w = (.ok (), w) := rfl

theorem write_site_config_dry (env : Env) (p : String) (as : List String)
    (wr phpv : String) (w : World) :
    write_site_config env p as wr phpv true w = (.ok (), w) := rfl

/-- Under dry-run, the `try` body of `add_site` leaves the world untouched,
whatever happens (every component short-circuits before its effect, and
rollback is skipped). -/
theorem addSiteSteps_dry_world (env : Env) (p : String) (as : List String)
    (app php : Option String) (cu f : Bool) (sr : String) (st : Json)
    (ex : Option Json) (w : World) :
    (addSiteSteps env p as app php cu f true sr st ex w).2 = w := by
  unfold addSiteSteps
  simp only [if_true, eq_self_iff_true, ite_true, create_linux_user_dry,
    create_database_dry, install_wordpress_dry, write_site_config_dry, addSiteFail]
  repeat' split
  all_goals (split_ifs at * <;> simp_all)

/-- Under dry-run, `add_site` returns the world unchanged, or changed only
by the state-directory creation of `load_state`. -/
theorem add_site_dry_world (env : Env) (p : String) (as : List String)
    (app php : Option String) (cu f : Bool) (w : World) :
    (add_site env p as app php cu f true w).2 = w ∨
    (add_site env p as app php cu f true w).2 = { w with stateDirExists := true } := by
  unfold add_site
  split
  · exact Or.inl rfl
  · simp only [load_state]
    split <;> rename_i heq <;> rw [Prod.mk.injEq] at heq
    · exact Or.inr heq.2.symm
    · split
      · exact Or.inr heq.2.symm
      · split
        · exact Or.inr heq.2.symm
        · right
          rw [addSiteSteps_dry_world]
          exact heq.2.symm

theorem deleteSiteDb_dry_world (env : Env) (sd : Option Json) (w : World) :
    (deleteSiteDb env sd true w).2 = w := by
  unfold deleteSiteDb delete_database
  repeat' split
  all_goals (first | rfl | simp_all)

theorem remove_site_config_dry (env : Env) (p : String) (w : World) :
    remove_site_config env p true w =
      (.ok ((w.proxy (get_site_config_path p)).isSome), w) := rfl

theorem delete_site_dry_world (env : Env) (p : String) (w : World) :
    (delete_site env p true w).2 = { w with stateDirExists := true } := by
  unfold delete_site
  simp only [load_state]
  split <;> rename_i heq <;> rw [Prod.mk.injEq] at heq
  · exact heq.2.symm
  · rename_i x state w1
    split
    · exact heq.2.symm
    · rename_i existing hget
      simp only [Bool.not_true, Bool.false_and, Bool.false_eq_true, if_false]
      have hw2 := deleteSiteDb_dry_world env existing w1
      rcases hdd : deleteSiteDb env existing true w1 with ⟨res, w2⟩
      rw [hdd] at hw2
      simp only at hw2
      cases res with
      | error e => exact hw2.trans heq.2.symm
      | ok u =>
        cases hrs : remove_site_state state p with
        | error e => exact hw2.trans heq.2.symm
        | ok pr =>
          obtain ⟨b, st2⟩ := pr
          exact hw2.trans heq.2.symm

/-- Under dry-run, `add_site` mutates nothing: every `World` component
except the state-directory flag is returned unchanged. -/
theorem add_site_dry_fields (env : Env) (p : String) (as : List String)
    (app php : Option String) (cu f : Bool) (w : World) :
    (add_site env p as app php cu f true w).2.stateFile = w.stateFile ∧
    (add_site env p as app php cu f true w).2.dirs = w.dirs ∧
    (add_site env p as app php cu f true w).2.users = w.users ∧
    (add_site env p as app php cu f true w).2.dbs = w.dbs ∧
    (add_site env p as app php cu f true w).2.dbUsers = w.dbUsers ∧
    (add_site env p as app php cu f true w).2.proxy = w.proxy := by
  rcases add_site_dry_world env p as app php cu f w with h | h <;> rw [h] <;>
    exact ⟨rfl, rfl, rfl, rfl, rfl, rfl⟩

/-- Claim C8, counterexample to the claim as stated: even under dry-run,
`delete_site` (like every operation that loads state) creates the state
directory via `_ensure_state_dir`, a filesystem mutation on a fresh host. -/
theorem dry_run_mutation_counterexample :
    emptyWorld.stateDirExists = false ∧
    (delete_site envAllOk "example.com" true emptyWorld).1 = .ok () ∧
    (delete_site envAllOk "example.com" true emptyWorld).2.stateDirExists = true :=
  ⟨rfl, rfl, rfl⟩

/-- Claim C8 as amended: with the dry-run flag set, no operation mutates
the filesystem, OS users, databases or proxy files — except that the
operations which load or save state (`add_site`, `delete_site`) still
ensure the state directory exists, a mutation performed unconditionally by
`_ensure_state_dir`.  All dry-run results are structurally valid: the
command runner reports exit code 0, and `create_database` returns the
requested names together with a generated placeholder password of the
configured length `PASSWORD_LENGTH = 32`. -/
theorem dry_run_no_mutation (env : Env) (w : World) (p : String) (as : List String)
    (app php : Option String) (cu f cf rh : Bool) (n uname home wr phpv : String)
    (du dp : Option String) (cmd : List String) :
    ((add_site env p as app php cu f true w).2.stateFile = w.stateFile ∧
     (add_site env p as app php cu f true w).2.dirs = w.dirs ∧
     (add_site env p as app php cu f true w).2.users = w.users ∧
     (add_site env p as app php cu f true w).2.dbs = w.dbs ∧
     (add_site env p as app php cu f true w).2.dbUsers = w.dbUsers ∧
     (add_site env p as app php cu f true w).2.proxy = w.proxy) ∧
    (delete_site env p true w).2 = { w with stateDirExists := true } ∧
    (create_database env n du dp true w).2 = w ∧
    (validate_identifier n = true →
      create_database env n none none true w = (.ok (n, n, generatePassword env), w)) ∧
    (generatePassword env).length = PASSWORD_LENGTH ∧
    (delete_database env n du true w).2 = w ∧
    (create_linux_user env uname home true w).2 = w ∧
    (delete_linux_user env uname rh true w).2 = w ∧
    write_site_config env p as wr phpv true w = (.ok (), w) ∧
    (remove_site_config env p true w).2 = w ∧
    install_wordpress env wr n uname home true w = (.ok (), w) ∧
    runCmd cf cmd true w = (.ok ⟨cmd, 0, "", ""⟩, w) := by
  refine ⟨add_site_dry_fields env p as app php cu f w,
          delete_site_dry_world env p w, ?_, ?_, ?_, ?_, ?_, ?_, ?_, ?_, rfl, rfl⟩
  · unfold create_database
    repeat' split <;> simp_all
  · intro hv
    simp [create_database, hv, pyOrStr]
  · simp [generatePassword, String.length]
  · unfold delete_database
    repeat' split <;> simp_all
  · unfold create_linux_user
    repeat' split <;> simp_all
  · unfold delete_linux_user
    repeat' split <;> simp_all
  · simp [write_site_config]
  · simp [remove_site_config]

/-- Witness for the amended C8, instantiated on the empty world with
concrete arguments (discharging the validity hypothesis of the
`create_database` conjunct). -/
theorem dry_run_no_mutation_witness :
    create_database envAllOk "mydb" none none true emptyWorld =
      (.ok ("mydb", "mydb", generatePassword envAllOk), emptyWorld) ∧
    (generatePassword envAllOk).length = PASSWORD_LENGTH :=
  ⟨(dry_run_no_mutation envAllOk emptyWorld "example.com" [] none none false false
      false false "mydb" "u" "h" "wr" "8.3" none none []).2.2.2.1 (by decide),
   (dry_run_no_mutation envAllOk emptyWorld "example.com" [] none none false false
      false false "mydb" "u" "h" "wr" "8.3" none none []).2.2.2.2.1⟩

/-! ### Claim C10 — forced re-add drops database fields -/

/-- Lookup in a JSON object (used to state which fields a record has). -/
def objGet (j : Json) (k : String) : Option Json :=
  match j with
  | .obj kvs => dictGet kvs k
  | _ => none

/-- Claim C10: when `add_site` is called with `force=True` on a domain whose
existing state record is non-empty (in particular, holds `db_name` /
`db_user` / `db_password` fields) and no WordPress application is
requested, the database-provisioning step is skipped entirely (condition
`app == "wordpress" or not existing` is false): the run performs no
database or database-user mutation, and the replacement record it persists
carries no `db_name`, `db_user` or `db_password` fields — the prior
credentials are not carried over. -/
theorem add_site_force_skips_db (env : Env) (w : World) (primary : String)
    (aliases : List String) (app php : Option String) (st r : Json)
    (hv : validate_domains primary aliases = (true, ""))
    (hload : load_state_file w.stateFile = .ok st)
    (hrec : get_site_state st primary = .ok (some r))
    (htr : pyTruthy r = true)
    (happ : (app == some "wordpress") = false)
    (hmk : env.mkdirFails = false)
    (hcw : env.caddyWriteFails = false)
    (hcrl : env.caddyReloadFails = false)
    (hsv : env.saveFails = false) :
    ∃ sd, (add_site env primary aliases app php false true false w).1 = .ok sd ∧
      objGet sd "db_name" = none ∧
      objGet sd "db_user" = none ∧
      objGet sd "db_password" = none ∧
      (add_site env primary aliases app php false true false w).2.dbs = w.dbs ∧
      (add_site env primary aliases app php false true false w).2.dbUsers = w.dbUsers ∧
      fileRecord (add_site env primary aliases app php false true false w).2.stateFile
        primary = some sd := by
  obtain ⟨kvs, skvs, hst, hsites⟩ := load_state_file_shape w.stateFile st hload
  subst hst
  have hrecd : dictGet skvs primary = some r := by
    simpa [get_site_state, hsites] using hrec
  have hmain : add_site env primary aliases app php false true false w =
      (.ok (addSiteData primary (aliases.filter (fun a => a ≠ primary))
              (_site_path primary) php app (_db_name_from_domain primary) none none none),
       ⟨true,
        .parsed (.obj (dictSet kvs "sites" (.obj (dictSet skvs primary
          (addSiteData primary (aliases.filter (fun a => a ≠ primary))
            (_site_path primary) php app (_db_name_from_domain primary) none none none))))),
        setFun w.dirs (_site_path primary), w.users, w.dbs, w.dbUsers,
        setOpt w.proxy (get_site_config_path primary)
          (render_caddy_config none primary (aliases.filter (fun a => a ≠ primary))
            (_site_path primary) (pyStripS (pyOrStr php "8.3")))⟩) := by
    unfold add_site addSiteSteps
    simp [hv, load_state, hload, get_site_state, hsites, hrecd, htr, happ,
      mkdirSite, hmk, write_site_config, hcw, hcrl, set_site_state, save_state, hsv,
      pyTruthyOpt, pyTruthyStr, dictContains, addSiteFail]
  rw [hmain]
  refine ⟨_, rfl, ?_, ?_, ?_, rfl, rfl, ?_⟩
  · simp [addSiteData, objGet, pyTruthyStr, dictGet]
  · simp [addSiteData, objGet, pyTruthyStr, dictGet]
  · simp [addSiteData, objGet, pyTruthyStr, dictGet]
  · simp [fileRecord, dictGet_dictSet_self]

/-- Witness for C10: forced re-add of `example.com` over a record holding
database credentials, with no application requested. -/
theorem add_site_force_skips_db_witness :
    ∃ sd, (add_site envAllOk "example.com" [] none none false true false worldEx).1 = .ok sd ∧
      objGet sd "db_name" = none ∧
      objGet sd "db_user" = none ∧
      objGet sd "db_password" = none ∧
      (add_site envAllOk "example.com" [] none none false true false worldEx).2.dbs = worldEx.dbs ∧
      (add_site envAllOk "example.com" [] none none false true false worldEx).2.dbUsers = worldEx.dbUsers ∧
      fileRecord (add_site envAllOk "example.com" [] none none false true false worldEx).2.stateFile
        "example.com" = some sd :=
  add_site_force_skips_db envAllOk worldEx "example.com" [] none none
    (.obj [("sites", .obj [("example.com", siteRecordEx)]), ("version", .num 1)])
    siteRecordEx (by decide) rfl rfl rfl rfl rfl rfl rfl rfl

/-! ### Claim C1 — add-site rollback -/

/-- The generated password is never the empty string. -/
theorem generatePassword_isEmpty (env : Env) : (generatePassword env).isEmpty = false := by
  rw [Bool.eq_false_iff]
  intro hc
  have hd : (List.range PASSWORD_LENGTH).map
      (fun i => passwordAlphabet.getD (env.pwChoice i % passwordAlphabet.length) 'a') = [] :=
    congrArg String.data ((String.isEmpty_iff _).mp hc)
  simp [PASSWORD_LENGTH] at hd

/-- A valid identifier is nonempty. -/
theorem validate_identifier_isEmpty (s : String) (h : validate_identifier s = true) :
    s.isEmpty = false := by
  by_contra hc
  rw [Bool.not_eq_false] at hc
  simp [validate_identifier, hc] at h

/-- Cleanup predicate for the rollback claim: no site directory, no OS user,
no database, no database user, no proxy config for the domain, and the
state file unchanged from `sf`. -/
def Clean (primary : String) (sf : FileContent) (w : World) : Prop :=
  w.dirs (_site_path primary) = false ∧
  w.users (unameOfDomain primary) = false ∧
  w.dbs (_db_name_from_domain primary) = false ∧
  w.dbUsers (_db_name_from_domain primary) = false ∧
  w.proxy (get_site_config_path primary) = none ∧
  w.stateFile = sf

set_option maxHeartbeats 2000000

theorem addSiteSteps_rollback_clean
    (env : Env) (primary : String) (aliases : List String) (app php : Option String)
    (cu f : Bool) (kvs skvs : List (String × Json)) (w : World)
    (hsites : dictGet kvs "sites" = some (.obj skvs))
    (hdir : w.dirs (_site_path primary) = false)
    (huser : w.users (unameOfDomain primary) = false)
    (hdb : w.dbs (_db_name_from_domain primary) = false)
    (hdbu : w.dbUsers (_db_name_from_domain primary) = false)
    (hpx : w.proxy (get_site_config_path primary) = none)
    (hr1 : env.rmtreeFails = false) (hr2 : env.userdelFails = false)
    (hr3 : env.dbDropFails = false) (hr4 : env.caddyRemoveFails = false)
    (hp1 : env.dbUserStmtFails = false) (hp2 : env.dbGrantFails = false)
    (hp3 : env.caddyReloadFails = false)
    (hfail : isErr (addSiteSteps env primary aliases app php cu f false
        (_site_path primary) (.obj kvs) none w).1 = true) :
    Clean primary w.stateFile
      ((addSiteSteps env primary aliases app php cu f false
        (_site_path primary) (.obj kvs) none w).2) := by
  have hgp := generatePassword_isEmpty env
  unfold addSiteSteps at hfail ⊢
  by_cases hmk : env.mkdirFails = true
  · clear hfail
    simp_all [Clean, mkdirSite, create_linux_user, create_database, install_wordpress,
      write_site_config, set_site_state, save_state, addSiteFail, rollback, rollbackStep,
      remove_site_config, delete_database, delete_linux_user, rmtree, pyOrStr, setFun, delFun,
      setOpt, delOpt, pyTruthyStr, pyTruthyOpt, dictContains, isErr]
  · by_cases hcu : cu = true
    · by_cases hvu : validate_identifier (unameOfDomain primary) = true
      · by_cases huf : env.useraddFails = true
        · clear hfail
          simp_all [Clean, mkdirSite, create_linux_user, create_database, install_wordpress,
            write_site_config, set_site_state, save_state, addSiteFail, rollback, rollbackStep,
            remove_site_config, delete_database, delete_linux_user, rmtree, pyOrStr, setFun, delFun,
            setOpt, delOpt, pyTruthyStr, pyTruthyOpt, dictContains, isErr]
        · by_cases hvdb : validate_identifier (_db_name_from_domain primary) = true
          · have hne := validate_identifier_isEmpty _ hvdb
            by_cases hdbf : env.dbCreateFails = true
            · clear hfail
              simp_all [Clean, mkdirSite, create_linux_user, create_database, install_wordpress,
                write_site_config, set_site_state, save_state, addSiteFail, rollback, rollbackStep,
                remove_site_config, delete_database, delete_linux_user, rmtree, pyOrStr, setFun, delFun,
                setOpt, delOpt, pyTruthyStr, pyTruthyOpt, dictContains, isErr]
            · by_cases hwp : (app == some "wordpress") = true
              · by_cases hwf : env.wpFails = true
                · clear hfail
                  simp_all [Clean, mkdirSite, create_linux_user, create_database, install_wordpress,
                    write_site_config, set_site_state, save_state, addSiteFail, rollback, rollbackStep,
                    remove_site_config, delete_database, delete_linux_user, rmtree, pyOrStr, setFun, delFun,
                    setOpt, delOpt, pyTruthyStr, pyTruthyOpt, dictContains, isErr]
                · by_cases hcwf : env.caddyWriteFails = true
                  · clear hfail
                    simp_all [Clean, mkdirSite, create_linux_user, create_database, install_wordpress,
                      write_site_config, set_site_state, save_state, addSiteFail, rollback, rollbackStep,
                      remove_site_config, delete_database, delete_linux_user, rmtree, pyOrStr, setFun, delFun,
                      setOpt, delOpt, pyTruthyStr, pyTruthyOpt, dictContains, isErr]
                  · by_cases hsf : env.saveFails = true
                    · clear hfail
                      simp_all [Clean, mkdirSite, create_linux_user, create_database, install_wordpress,
                        write_site_config, set_site_state, save_state, addSiteFail, rollback, rollbackStep,
                        remove_site_config, delete_database, delete_linux_user, rmtree, pyOrStr, setFun, delFun,
                        setOpt, delOpt, pyTruthyStr, pyTruthyOpt, dictContains, isErr]
                    · simp_all [mkdirSite, create_linux_user, create_database, install_wordpress,
                        write_site_config, set_site_state, save_state, isErr, pyOrStr, pyTruthyStr,
                        pyTruthyOpt, dictContains, setFun, delFun, setOpt, delOpt]
              · by_cases hcwf : env.caddyWriteFails = true
                · clear hfail
                  simp_all [Clean, mkdirSite, create_linux_user, create_database, install_wordpress,
                    write_site_config, set_site_state, save_state, addSiteFail, rollback, rollbackStep,
                    remove_site_config, delete_database, delete_linux_user, rmtree, pyOrStr, setFun, delFun,
                    setOpt, delOpt, pyTruthyStr, pyTruthyOpt, dictContains, isErr]
                · by_cases hsf : env.saveFails = true
                  · clear hfail
                    simp_all [Clean, mkdirSite, create_linux_user, create_database, install_wordpress,
                      write_site_config, set_site_state, save_state, addSiteFail, rollback, rollbackStep,
                      remove_site_config, delete_database, delete_linux_user, rmtree, pyOrStr, setFun, delFun,
                      setOpt, delOpt, pyTruthyStr, pyTruthyOpt, dictContains, isErr]
                  · simp_all [mkdirSite, create_linux_user, create_database, install_wordpress,
                      write_site_config, set_site_state, save_state, isErr, pyOrStr, pyTruthyStr,
                      pyTruthyOpt, dictContains, setFun, delFun, setOpt, delOpt]
          · clear hfail
            simp_all [Clean, mkdirSite, create_linux_user, create_database, install_wordpress,
              write_site_config, set_site_state, save_state, addSiteFail, rollback, rollbackStep,
              remove_site_config, delete_database, delete_linux_user, rmtree, pyOrStr, setFun, delFun,
              setOpt, delOpt, pyTruthyStr, pyTruthyOpt, dictContains, isErr]
      · clear hfail
        simp_all [Clean, mkdirSite, create_linux_user, create_database, install_wordpress,
          write_site_config, set_site_state, save_state, addSiteFail, rollback, rollbackStep,
          remove_site_config, delete_database, delete_linux_user, rmtree, pyOrStr, setFun, delFun,
          setOpt, delOpt, pyTruthyStr, pyTruthyOpt, dictContains, isErr]
    · by_cases hvdb : validate_identifier (_db_name_from_domain primary) = true
      · have hne := validate_identifier_isEmpty _ hvdb
        by_cases hdbf : env.dbCreateFails = true
        · clear hfail
          simp_all [Clean, mkdirSite, create_linux_user, create_database, install_wordpress,
            write_site_config, set_site_state, save_state, addSiteFail, rollback, rollbackStep,
            remove_site_config, delete_database, delete_linux_user, rmtree, pyOrStr, setFun, delFun,
            setOpt, delOpt, pyTruthyStr, pyTruthyOpt, dictContains, isErr]
        · by_cases hwp : (app == some "wordpress") = true
          · by_cases hwf : env.wpFails = true
            · clear hfail
              simp_all [Clean, mkdirSite, create_linux_user, create_database, install_wordpress,
                write_site_config, set_site_state, save_state, addSiteFail, rollback, rollbackStep,
                remove_site_config, delete_database, delete_linux_user, rmtree, pyOrStr, setFun, delFun,
                setOpt, delOpt, pyTruthyStr, pyTruthyOpt, dictContains, isErr]
            · by_cases hcwf : env.caddyWriteFails = true
              · clear hfail
                simp_all [Clean, mkdirSite, create_linux_user, create_database, install_wordpress,
                  write_site_config, set_site_state, save_state, addSiteFail, rollback, rollbackStep,
                  remove_site_config, delete_database, delete_linux_user, rmtree, pyOrStr, setFun, delFun,
                  setOpt, delOpt, pyTruthyStr, pyTruthyOpt, dictContains, isErr]
              · by_cases hsf : env.saveFails = true
                · clear hfail
                  simp_all [Clean, mkdirSite, create_linux_user, create_database, install_wordpress,
                    write_site_config, set_site_state, save_state, addSiteFail, rollback, rollbackStep,
                    remove_site_config, delete_database, delete_linux_user, rmtree, pyOrStr, setFun, delFun,
                    setOpt, delOpt, pyTruthyStr, pyTruthyOpt, dictContains, isErr]
                · simp_all [mkdirSite, create_linux_user, create_database, install_wordpress,
                    write_site_config, set_site_state, save_state, isErr, pyOrStr, pyTruthyStr,
                    pyTruthyOpt, dictContains, setFun, delFun, setOpt, delOpt]
          · by_cases hcwf : env.caddyWriteFails = true
            · clear hfail
              simp_all [Clean, mkdirSite, create_linux_user, create_database, install_wordpress,
                write_site_config, set_site_state, save_state, addSiteFail, rollback, rollbackStep,
                remove_site_config, delete_database, delete_linux_user, rmtree, pyOrStr, setFun, delFun,
                setOpt, delOpt, pyTruthyStr, pyTruthyOpt, dictContains, isErr]
            · by_cases hsf : env.saveFails = true
              · clear hfail
                simp_all [Clean, mkdirSite, create_linux_user, create_database, install_wordpress,
                  write_site_config, set_site_state, save_state, addSiteFail, rollback, rollbackStep,
                  remove_site_config, delete_database, delete_linux_user, rmtree, pyOrStr, setFun, delFun,
                  setOpt, delOpt, pyTruthyStr, pyTruthyOpt, dictContains, isErr]
              · simp_all [mkdirSite, create_linux_user, create_database, install_wordpress,
                  write_site_config, set_site_state, save_state, isErr, pyOrStr, pyTruthyStr,
                  pyTruthyOpt, dictContains, setFun, delFun, setOpt, delOpt]
      · clear hfail
        simp_all [Clean, mkdirSite, create_linux_user, create_database, install_wordpress,
          write_site_config, set_site_state, save_state, addSiteFail, rollback, rollbackStep,
          remove_site_config, delete_database, delete_linux_user, rmtree, pyOrStr, setFun, delFun,
          setOpt, delOpt, pyTruthyStr, pyTruthyOpt, dictContains, isErr]

theorem fileRecord_none_of_load (fc : FileContent) (st : Json) (d : String)
    (hl : load_state_file fc = .ok st) (hg : get_site_state st d = .ok none) :
    fileRecord fc d = none := by
  cases fc with
  | missing => rfl
  | malformed => rfl
  | parsed j =>
    cases j with
    | obj kvs =>
      simp only [load_state_file] at hl
      cases hs : dictGet kvs "sites" with
      | none => simp [fileRecord, hs]
      | some v =>
        cases v with
        | obj skvs =>
          simp [hs] at hl
          subst hl
          simp [get_site_state, hs] at hg
          simp [fileRecord, hs, hg]
        | null => simp [fileRecord, hs]
        | bool b => simp [fileRecord, hs]
        | num n => simp [fileRecord, hs]
        | str s => simp [fileRecord, hs]
        | arr xs => simp [fileRecord, hs]
    | null => simp [load_state_file] at hl
    | bool b => simp [load_state_file] at hl
    | num n => simp [load_state_file] at hl
    | str s => simp [load_state_file] at hl
    | arr xs => simp [load_state_file] at hl

/-- Claim C1 as amended: for every `add_site` invocation (`dry_run=False`)
on a domain with no pre-existing site directory, OS user, database,
database user, proxy config or state record, if the invocation raises
(anywhere — validation, directory creation, or any later step), every
compensating rollback operation itself succeeds (`rmtree`, `userdel`,
database drop and proxy-config removal do not fail), and the failing step
itself left no partial effect behind (the database create did not fail
between its SQL statements — after `CREATE DATABASE` but before the grant
sequence completed — and the proxy-config write did not fail at the caddy
reload that runs after the file is already written), then after `add_site`
re-raises: the site directory does not exist, the derived OS user does not
exist, the derived database and database user do not exist, the proxy
config file for the domain does not exist, and the persisted state file
holds no record for the domain (it is unchanged).  The claim as stated
omits both provisos: rollback is best-effort, a failing undo operation is
swallowed (see the counterexample), and a step that fails after a partial
effect records no `steps_done` entry for that effect, so rollback never
undoes it (see `add_site_reload_failure_leaves_proxy` and
`add_site_db_partial_failure_leaves_db`). -/
theorem add_site_rollback_clean (env : Env) (w : World) (primary : String)
    (aliases : List String) (app php : Option String) (cu f : Bool) (st : Json)
    (hload : load_state_file w.stateFile = .ok st)
    (hrec : get_site_state st primary = .ok none)
    (hdir : w.dirs (_site_path primary) = false)
    (huser : w.users (unameOfDomain primary) = false)
    (hdb : w.dbs (_db_name_from_domain primary) = false)
    (hdbu : w.dbUsers (_db_name_from_domain primary) = false)
    (hpx : w.proxy (get_site_config_path primary) = none)
    (hr1 : env.rmtreeFails = false) (hr2 : env.userdelFails = false)
    (hr3 : env.dbDropFails = false) (hr4 : env.caddyRemoveFails = false)
    (hp1 : env.dbUserStmtFails = false) (hp2 : env.dbGrantFails = false)
    (hp3 : env.caddyReloadFails = false)
    (hfail : isErr (add_site env primary aliases app php cu f false w).1 = true) :
    Clean primary w.stateFile ((add_site env primary aliases app php cu f false w).2) ∧
    fileRecord ((add_site env primary aliases app php cu f false w).2).stateFile
      primary = none := by
  obtain ⟨kvs, skvs, hst, hsites⟩ := load_state_file_shape w.stateFile st hload
  subst hst
  have hrecd : dictGet skvs primary = none := by
    simpa [get_site_state, hsites] using hrec
  have hfr : fileRecord w.stateFile primary = none :=
    fileRecord_none_of_load w.stateFile _ primary hload hrec
  unfold add_site at hfail ⊢
  cases hv : validate_domains primary aliases with
  | mk ok err =>
    cases ok with
    | false =>
      exact ⟨⟨hdir, huser, hdb, hdbu, hpx, rfl⟩, hfr⟩
    | true =>
      rw [hv] at hfail
      simp [load_state, hload, get_site_state, hsites, hrecd, pyTruthyOpt] at hfail ⊢
      have hclean := addSiteSteps_rollback_clean env primary aliases app php cu f
        kvs skvs { w with stateDirExists := true } hsites hdir huser hdb hdbu hpx
        hr1 hr2 hr3 hr4 hp1 hp2 hp3 hfail
      refine ⟨hclean, ?_⟩
      rw [hclean.2.2.2.2.2]
      exact hfr

/-- An environment in which only the final state-persist fails. -/
def envSaveFail : Env := { envAllOk with saveFails := true }

/-- Witness for the amended C1: on a fresh host, a failure of the final
state-persist step triggers a full rollback — directory, OS user, database,
database user and proxy config are all gone and no state record exists. -/
theorem add_site_rollback_clean_witness :
    Clean "example.com" emptyWorld.stateFile
      ((add_site envSaveFail "example.com" [] none none true false false emptyWorld).2) ∧
    fileRecord ((add_site envSaveFail "example.com" [] none none true false false
      emptyWorld).2).stateFile "example.com" = none :=
  add_site_rollback_clean envSaveFail emptyWorld "example.com" [] none none true false
    DEFAULT_STATE rfl rfl rfl rfl rfl rfl rfl rfl rfl rfl rfl rfl rfl rfl rfl

/-- Claim C1, counterexample to the claim as stated: the proxy-config write
fails (a step after directory creation raises), and during rollback the
database drop itself fails; the rollback failure is swallowed and logged,
so `add_site` re-raises the proxy error while the database and database
user created by this invocation still exist.  The claim asserts they have
been dropped unconditionally; the code only guarantees this when the
compensating rollback operations themselves succeed. -/
theorem add_site_rollback_counterexample :
    (add_site envCaddyAndDropFail "example.com" [] none none false false false
      emptyWorld).1 = Except.error Err.proxyError ∧
    (add_site envCaddyAndDropFail "example.com" [] none none false false false
      emptyWorld).2.dbs "example_com" = true ∧
    (add_site envCaddyAndDropFail "example.com" [] none none false false false
      emptyWorld).2.dbUsers "example_com" = true ∧
    (add_site envCaddyAndDropFail "example.com" [] none none false false false
      emptyWorld).2.dirs "/var/www/example.com" = false :=
  ⟨rfl, rfl, rfl, rfl⟩

/-- A second purely-illustrative partial-effect path: in `caddy.py`
`write_site_config` runs the caddy reload (`run_cmd`, `check=True`) only
after `path.write_text` has written the config file, so a reload failure
raises with the file already on disk; `add_site` records no `"proxy"`
entry in `steps_done` for the failed step, so rollback (whose every
operation succeeds here) removes the directory and drops the database but
never touches the proxy config, which survives the raised error. -/
theorem add_site_reload_failure_leaves_proxy :
    (add_site envReloadFail "example.com" [] none none false false false
      emptyWorld).1 = Except.error Err.calledProcessError ∧
    ((add_site envReloadFail "example.com" [] none none false false false
      emptyWorld).2.proxy (get_site_config_path "example.com")).isSome = true ∧
    (add_site envReloadFail "example.com" [] none none false false false
      emptyWorld).2.dirs "/var/www/example.com" = false ∧
    (add_site envReloadFail "example.com" [] none none false false false
      emptyWorld).2.dbs "example_com" = false :=
  ⟨rfl, rfl, rfl, rfl⟩

/-- A third purely-illustrative partial-effect path: in `database.py` a
`MySQLError` raised after `CREATE DATABASE` has succeeded (here at the
`CREATE USER` statement) leaves the database behind; `add_site` records no
`"database"` entry in `steps_done` for the failed step, so rollback (whose
every operation succeeds here) removes the directory but never drops the
database, which survives the raised error. -/
theorem add_site_db_partial_failure_leaves_db :
    (add_site envDbPartialFail "example.com" [] none none false false false
      emptyWorld).1 = Except.error Err.dbError ∧
    (add_site envDbPartialFail "example.com" [] none none false false false
      emptyWorld).2.dbs "example_com" = true ∧
    (add_site envDbPartialFail "example.com" [] none none false false false
      emptyWorld).2.dbUsers "example_com" = false ∧
    (add_site envDbPartialFail "example.com" [] none none false false false
      emptyWorld).2.dirs "/var/www/example.com" = false :=
  ⟨rfl, rfl, rfl, rfl⟩

/-! ### Claim C7 — delete-site idempotence -/

theorem dictGet_dictDel_self (kvs : List (String × Json)) (k : String)
    (h : keysNodup kvs = true) : dictGet (dictDel kvs k) k = none := by
  induction kvs with
  | nil => rfl
  | cons head rest ih =>
    obtain ⟨k', v⟩ := head
    simp only [keysNodup, Bool.and_eq_true, Bool.not_eq_true'] at h
    by_cases hk : k' = k
    · subst hk
      simp only [dictDel, if_pos rfl]
      simp [dictContains] at h
      exact h.1
    · simp [dictDel, hk, dictGet, ih h.2]

theorem load_state_file_wf (fc : FileContent) (st : Json)
    (hwf : fileWF fc = true) (h : load_state_file fc = .ok st) :
    ∃ kvs skvs, st = .obj kvs ∧ dictGet kvs "sites" = some (.obj skvs) ∧
      keysNodup skvs = true := by
  cases fc with
  | missing =>
    simp [load_state_file] at h
    subst h
    exact ⟨_, [], rfl, rfl, rfl⟩
  | malformed =>
    simp [load_state_file] at h
    subst h
    exact ⟨_, [], rfl, rfl, rfl⟩
  | parsed j =>
    cases j with
    | obj kvs =>
      simp only [load_state_file] at h
      cases hs : dictGet kvs "sites" with
      | none =>
        simp [hs] at h
        subst h
        exact ⟨_, [], rfl, dictGet_dictSet_self kvs "sites" (.obj []), rfl⟩
      | some v =>
        cases v with
        | obj skvs =>
          simp [hs] at h
          subst h
          refine ⟨kvs, skvs, rfl, hs, ?_⟩
          exact (by simpa [fileWF, docKeysOk, hs] using hwf :
            keysNodup kvs = true ∧ keysNodup skvs = true).2
        | null =>
          simp [hs] at h
          subst h
          exact ⟨_, [], rfl, dictGet_dictSet_self kvs "sites" (.obj []), rfl⟩
        | bool b =>
          simp [hs] at h
          subst h
          exact ⟨_, [], rfl, dictGet_dictSet_self kvs "sites" (.obj []), rfl⟩
        | num n =>
          simp [hs] at h
          subst h
          exact ⟨_, [], rfl, dictGet_dictSet_self kvs "sites" (.obj []), rfl⟩
        | str s =>
          simp [hs] at h
          subst h
          exact ⟨_, [], rfl, dictGet_dictSet_self kvs "sites" (.obj []), rfl⟩
        | arr xs =>
          simp [hs] at h
          subst h
          exact ⟨_, [], rfl, dictGet_dictSet_self kvs "sites" (.obj []), rfl⟩
    | null => simp [load_state_file] at h
    | bool b => simp [load_state_file] at h
    | num n => simp [load_state_file] at h
    | str s => simp [load_state_file] at h
    | arr xs => simp [load_state_file] at h

/-- A `delete_site` call on a world where nothing remains for the domain is
a chain of no-ops followed by a state save, and raises nothing. -/
theorem delete_site_noop (env : Env) (w : World) (primary : String)
    (kvs skvs : List (String × Json))
    (hsf : w.stateFile = .parsed (.obj kvs))
    (hsites : dictGet kvs "sites" = some (.obj skvs))
    (hrec : dictGet skvs primary = none)
    (hdir : w.dirs (_site_path primary) = false)
    (hpx : w.proxy (get_site_config_path primary) = none)
    (hsv : env.saveFails = false) :
    (delete_site env primary false w).1 = .ok () := by
  simp [delete_site, load_state, hsf, load_state_file, hsites, get_site_state, hrec,
    hdir, deleteSiteDb, remove_site_config, hpx, remove_site_state, dictContains,
    save_state, hsv]

theorem rmtree_ok (env : Env) (p : String) (w : World) (a : Unit) (w2 : World)
    (h : rmtree env p w = (.ok a, w2)) :
    env.rmtreeFails = false ∧ w2 = { w with dirs := delFun w.dirs p } := by
  unfold rmtree at h
  split_ifs at h <;> simp_all

theorem deleteSiteDb_ok_frame (env : Env) (sd : Option Json) (w : World)
    (a : Unit) (w2 : World) (h : deleteSiteDb env sd false w = (.ok a, w2)) :
    w2.proxy = w.proxy ∧ w2.dirs = w.dirs ∧ w2.stateFile = w.stateFile := by
  unfold deleteSiteDb delete_database at h
  repeat' split at h
  all_goals (try split_ifs at *)
  all_goals
    (try (simp only [Prod.mk.injEq] at h; obtain ⟨h1, h2⟩ := h; subst h2; exact ⟨rfl, rfl, rfl⟩))
  all_goals simp_all

theorem remove_site_config_ok_frame (env : Env) (p : String) (w : World)
    (a : Bool) (w2 : World) (h : remove_site_config env p false w = (.ok a, w2)) :
    w2.proxy (get_site_config_path p) = none ∧ w2.dirs = w.dirs ∧
      w2.stateFile = w.stateFile := by
  simp only [remove_site_config, Bool.false_eq_true, if_false] at h
  cases hpx : w.proxy (get_site_config_path p) with
  | none =>
    rw [hpx] at h
    simp only [Prod.mk.injEq] at h
    obtain ⟨h1, h2⟩ := h
    subst h2
    exact ⟨hpx, rfl, rfl⟩
  | some cfg =>
    rw [hpx] at h
    split_ifs at h
    · simp at h
    · simp only [Prod.mk.injEq] at h
      obtain ⟨h1, h2⟩ := h
      subst h2
      refine ⟨?_, rfl, rfl⟩
      simp [delOpt]

theorem save_state_ok (env : Env) (st : Json) (w : World) (a : Unit) (w2 : World)
    (h : save_state env st w = (.ok a, w2)) :
    env.saveFails = false ∧
      w2 = { w with stateDirExists := true, stateFile := .parsed st } := by
  unfold save_state at h
  split_ifs at h <;> simp_all

theorem remove_site_state_ok (kvs skvs : List (String × Json)) (primary : String)
    (fst : Bool) (state' : Json)
    (hsites : dictGet kvs "sites" = some (.obj skvs)) (hnd : keysNodup skvs = true)
    (h : remove_site_state (.obj kvs) primary = .ok (fst, state')) :
    ∃ kvs2 skvs2, state' = .obj kvs2 ∧ dictGet kvs2 "sites" = some (.obj skvs2) ∧
      dictGet skvs2 primary = none := by
  simp only [remove_site_state, hsites] at h
  split_ifs at h with hc
  · simp only [Except.ok.injEq, Prod.mk.injEq] at h
    refine ⟨dictSet kvs "sites" (.obj (dictDel skvs primary)), dictDel skvs primary,
      h.2.symm, dictGet_dictSet_self kvs "sites" _,
      dictGet_dictDel_self skvs primary hnd⟩
  · simp only [Except.ok.injEq, Prod.mk.injEq] at h
    refine ⟨kvs, skvs, h.2.symm, hsites, ?_⟩
    simpa [dictContains] using hc

set_option maxHeartbeats 1000000

/-- Claim C7: `delete_site` is idempotent with respect to raising — once a
`delete_site` call on a well-formed state file has completed successfully,
a second call on the same domain also completes without raising: the
directory, database record, proxy config and state entry are all already
absent and each teardown step is a no-op (the state is re-saved). -/
theorem delete_site_idempotent (env : Env) (w w₁ : World) (primary : String)
    (hwf : fileWF w.stateFile = true)
    (h1 : delete_site env primary false w = (.ok (), w₁)) :
    (delete_site env primary false w₁).1 = .ok () := by
  cases hl : load_state_file w.stateFile with
  | error e =>
    unfold delete_site at h1
    simp [load_state, hl] at h1
  | ok st =>
    obtain ⟨kvs, skvs, hst, hsites, hnd⟩ := load_state_file_wf w.stateFile st hwf hl
    subst hst
    unfold delete_site at h1
    simp only [load_state, hl, get_site_state, hsites, Bool.not_false, Bool.true_and,
      if_true] at h1
    -- case on whether the site directory existed
    by_cases hdirs : w.dirs (_site_path primary) = true
    all_goals simp only [hdirs, if_true, if_false, Bool.false_eq_true] at h1
    -- directory present: rmtree ran
    · split at h1
      · simp at h1
      · rename_i aR w2 heqR
        obtain ⟨hrf, hw2⟩ := rmtree_ok env (_site_path primary) _ aR w2 heqR
        subst hw2
        split at h1
        · simp at h1
        · rename_i aD wD heqD
          obtain ⟨hpD, hdD, hsD⟩ := deleteSiteDb_ok_frame env _ _ aD wD heqD
          split at h1
          · simp at h1
          · rename_i aC wC heqC
            obtain ⟨hpC, hdC, hsC⟩ := remove_site_config_ok_frame env primary _ aC wC heqC
            split at h1
            · rename_i e heqS
              simp only [remove_site_state, hsites] at heqS
              split_ifs at heqS <;> simp at heqS
            · rename_i fst state2 heqS
              obtain ⟨kvs2, skvs2, hst2, hsites2, hrec2⟩ :=
                remove_site_state_ok kvs skvs primary fst state2 hsites hnd heqS
              split at h1
              · simp at h1
              · rename_i aS wS heqSave
                obtain ⟨hsf, hwS⟩ := save_state_ok env state2 _ aS wS heqSave
                simp only [Prod.mk.injEq, Except.ok.injEq] at h1
                have hw1 : w₁ = wS := h1.2.symm
                subst hw1
                subst hwS
                apply delete_site_noop env _ primary kvs2 skvs2
                · simpa using congrArg FileContent.parsed hst2
                · exact hsites2
                · exact hrec2
                · simp only
                  rw [hdC, hdD]
                  simp [delFun]
                · simpa using hpC
                · exact hsf
    -- directory absent: rmtree skipped
    · split at h1
      · simp at h1
      · rename_i aD wD heqD
        obtain ⟨hpD, hdD, hsD⟩ := deleteSiteDb_ok_frame env _ _ aD wD heqD
        split at h1
        · simp at h1
        · rename_i aC wC heqC
          obtain ⟨hpC, hdC, hsC⟩ := remove_site_config_ok_frame env primary _ aC wC heqC
          split at h1
          · rename_i e heqS
            simp only [remove_site_state, hsites] at heqS
            split_ifs at heqS <;> simp at heqS
          · rename_i fst state2 heqS
            obtain ⟨kvs2, skvs2, hst2, hsites2, hrec2⟩ :=
              remove_site_state_ok kvs skvs primary fst state2 hsites hnd heqS
            split at h1
            · simp at h1
            · rename_i aS wS heqSave
              obtain ⟨hsf, hwS⟩ := save_state_ok env state2 _ aS wS heqSave
              simp only [Prod.mk.injEq, Except.ok.injEq] at h1
              have hw1 : w₁ = wS := h1.2.symm
              subst hw1
              subst hwS
              apply delete_site_noop env _ primary kvs2 skvs2
              · simpa using congrArg FileContent.parsed hst2
              · exact hsites2
              · exact hrec2
              · simp only
                rw [hdC, hdD]
                simpa using hdirs
              · simpa using hpC
              · exact hsf

/-- Witness for C7: a full provision-then-delete of `example.com`, followed
by a second delete, which completes without raising. -/
theorem delete_site_idempotent_witness :
    (delete_site envAllOk "example.com" false
      (delete_site envAllOk "example.com" false worldEx).2).1 = .ok () :=
  delete_site_idempotent envAllOk worldEx
    (delete_site envAllOk "example.com" false worldEx).2 "example.com"
    (by decide) (Prod.ext rfl rfl)

end FrankenCli



